import Mathlib

/-!
Verification development for the aqua-service-controller repository.

The definitions below are shallow embeddings of the Go source files:
  * `internal/aws` (EBS client: `WaitForVolumeDetach`, `GetVolumeIDFromHandle`),
  * `internal/migration/pv_translator.go` (`TranslatePV` and helpers),
  * `internal/controller/reconciler.go` (phase state machine and helpers),
  * `api/v1alpha1/types.go` (status data model).

Durations are modelled in whole seconds as `Nat` (the Go code only ever uses
multiples of one second).  Kubernetes API interactions are modelled by passing
the relevant cluster state explicitly; an `Option`/`Except` result models the
fallible calls.
-/

namespace AquaService

/-! ## Cloud Volume Waiter (package `aws`, file `ebs.go`) -/

/-- EBS volume states (`types.VolumeState` values used by the code). -/
inductive VolumeState
  | creating
  | available
  | inUse
  | deleting
  | deleted
  | error
  deriving DecidableEq, Repr

/-- `WaitForVolumeDetachConfig`: poll interval and timeout, in seconds.
A zero value means "not set" (Go zero value of `time.Duration`). -/
structure WaitForVolumeDetachConfig where
  pollInterval : Nat
  timeout : Nat
  deriving DecidableEq, Repr

/-- `DefaultWaitConfig()`: 5 s poll interval, 5 min timeout. -/
def defaultWaitConfig : WaitForVolumeDetachConfig :=
  { pollInterval := 5, timeout := 300 }

/-- The distinct error outcomes of `WaitForVolumeDetach`
(in Go these are `fmt.Errorf` values; the constructors record
which `return` statement produced the error and its data). -/
inductive WaitError
  | apiError (msg : String)
  | errorState (volumeID : String)
  | volumeGone (volumeID : String)
  | timeout (msg : String)
  deriving DecidableEq, Repr

/-- The timeout message
`fmt.Errorf("timeout waiting for volume %s to detach (waited %v)", volumeID, cfg.Timeout)`. -/
def timeoutMessage (volumeID : String) (tmo : Nat) : String :=
  "timeout waiting for volume " ++ volumeID ++ " to detach (waited " ++ toString tmo ++ "s)"

/-- `cfg.PollInterval`, after the defaulting at the top of `WaitForVolumeDetach`. -/
def effectivePollInterval (cfg : WaitForVolumeDetachConfig) : Nat :=
  if cfg.pollInterval = 0 then 5 else cfg.pollInterval

/-- `cfg.Timeout`, after the defaulting at the top of `WaitForVolumeDetach`. -/
def effectiveTimeout (cfg : WaitForVolumeDetachConfig) : Nat :=
  if cfg.timeout = 0 then 300 else cfg.timeout

/-- Number of ticker ticks that fire strictly before the deadline: ticks occur
at times `k * interval` for `k ≥ 1`, the context deadline at `tmo`.  A tick
racing the deadline exactly at `tmo` is resolved in favour of the deadline. -/
def numTicks (tmo interval : Nat) : Nat :=
  (tmo - 1) / interval

/-- The `for { select { ... } }` loop of `WaitForVolumeDetach`.  `reads k` is the
result of the `GetVolumeInfo` call at the `k`-th read overall (`none` models an
API error), `fuel` the number of ticks remaining before the deadline.
Returns the result together with the list of states passed to `cfg.OnPoll`,
in order (`OnPoll` runs after each successful read, before the state checks). -/
def waitLoop (reads : Nat → Option VolumeState) (volumeID : String) (tmo : Nat) :
    Nat → Nat → Except WaitError Unit × List VolumeState
  | _, 0 => (Except.error (WaitError.timeout (timeoutMessage volumeID tmo)), [])
  | k, fuel + 1 =>
    match reads k with
    | none => (Except.error (WaitError.apiError "failed to get volume info"), [])
    | some s =>
      if s = VolumeState.available then (Except.ok (), [s])
      else if s = VolumeState.error then (Except.error (WaitError.errorState volumeID), [s])
      else if s = VolumeState.deleted ∨ s = VolumeState.deleting then
        (Except.error (WaitError.volumeGone volumeID), [s])
      else
        let r := waitLoop reads volumeID tmo (k + 1) fuel
        (r.1, s :: r.2)

/-- `WaitForVolumeDetach(ctx, volumeID, cfg)`: default the config, perform the
immediate read (read index 0), return success at once when it shows
`available` (before any `OnPoll` call), otherwise report it to `OnPoll` and
enter the ticker loop.  The second component is the list of states passed to
`cfg.OnPoll`, in order. -/
def waitForVolumeDetach (reads : Nat → Option VolumeState) (volumeID : String)
    (cfg : WaitForVolumeDetachConfig) : Except WaitError Unit × List VolumeState :=
  let interval := effectivePollInterval cfg
  let tmo := effectiveTimeout cfg
  match reads 0 with
  | none => (Except.error (WaitError.apiError "failed to get initial volume info"), [])
  | some s0 =>
    if s0 = VolumeState.available then (Except.ok (), [])
    else
      let r := waitLoop reads volumeID tmo 1 (numTicks tmo interval)
      (r.1, s0 :: r.2)

/-! ## Volume Translator (package `migration`, file `pv_translator.go`)

The Kubernetes `core/v1` objects are embedded with exactly the fields the
translator reads or writes.  `resource.Quantity` is opaque to the code (it is
only copied), so it is modelled as a `String`. -/

/-- `corev1.CSIPersistentVolumeSource` (fields used by the code). -/
structure CSIPersistentVolumeSource where
  driver : String
  volumeHandle : String
  fsType : String
  readOnly : Bool
  volumeAttributes : Option (List (String × String))
  deriving DecidableEq, Repr

/-- `corev1.AWSElasticBlockStoreVolumeSource`. -/
structure AWSElasticBlockStoreVolumeSource where
  volumeID : String
  fsType : String
  partition : Int
  readOnly : Bool
  deriving DecidableEq, Repr

/-- `corev1.NodeSelectorRequirement`. -/
structure NodeSelectorRequirement where
  key : String
  op : String
  values : List String
  deriving DecidableEq, Repr

/-- `corev1.NodeSelectorTerm` (only `matchExpressions` is used). -/
structure NodeSelectorTerm where
  matchExpressions : List NodeSelectorRequirement
  deriving DecidableEq, Repr

/-- `corev1.NodeSelector`. -/
structure NodeSelector where
  nodeSelectorTerms : List NodeSelectorTerm
  deriving DecidableEq, Repr

/-- `corev1.VolumeNodeAffinity`. -/
structure VolumeNodeAffinity where
  required : Option NodeSelector
  deriving DecidableEq, Repr

/-- `corev1.ObjectReference` (fields the code sets). -/
structure ObjectReference where
  apiVersion : String
  kind : String
  namespace_ : String
  name : String
  deriving DecidableEq, Repr

/-- `corev1.PersistentVolumeReclaimPolicy`. -/
inductive ReclaimPolicy
  | retain
  | delete
  | recycle
  deriving DecidableEq, Repr

/-- `corev1.PersistentVolumeSpec`, with the `PersistentVolumeSource` union
inlined as in the Go type (`csi` / `awsElasticBlockStore`). -/
structure PersistentVolumeSpec where
  capacityStorage : String
  accessModes : List String
  persistentVolumeReclaimPolicy : ReclaimPolicy
  storageClassName : String
  claimRef : Option ObjectReference
  csi : Option CSIPersistentVolumeSource
  awsElasticBlockStore : Option AWSElasticBlockStoreVolumeSource
  volumeMode : Option String
  nodeAffinity : Option VolumeNodeAffinity
  deriving DecidableEq, Repr

/-- `corev1.PersistentVolume` (metadata fields the code uses, plus spec). -/
structure PersistentVolume where
  name : String
  uid : String
  labels : List (String × String)
  annotations : List (String × String)
  spec : PersistentVolumeSpec
  deriving DecidableEq, Repr

/-- `corev1.PersistentVolumeClaimSpec` (fields the code uses). -/
structure PersistentVolumeClaimSpec where
  accessModes : List String
  requestsStorage : String
  volumeName : String
  storageClassName : Option String
  volumeMode : Option String
  deriving DecidableEq, Repr

/-- `corev1.PersistentVolumeClaim`. -/
structure PersistentVolumeClaim where
  name : String
  namespace_ : String
  uid : String
  labels : List (String × String)
  annotations : List (String × String)
  spec : PersistentVolumeClaimSpec
  deriving DecidableEq, Repr

/-- `PVTranslationConfig`.  The Go `map[string]string` may be nil, hence
`Option` of an association list. -/
structure PVTranslationConfig where
  destNamespace : String
  destPVCName : String
  storageClassMapping : Option (List (String × String))
  preserveNodeAffinity : Bool
  deriving DecidableEq, Repr

/-- The error returns of `TranslatePV` / `extractEBSVolumeID`
(`fmt.Errorf` values; constructors record which `return` produced them). -/
inductive TranslateError
  | nilSourcePV
  | nilSourcePVC
  | unsupportedDriver (driver : String)
  | notABlockVolume (pvName : String)
  deriving DecidableEq, Repr

/-- `strings.Split(s, "/")` on the character list of `s`. -/
def splitOnSlash : List Char → List (List Char)
  | [] => [[]]
  | c :: cs =>
    match splitOnSlash cs with
    | [] => [[]]
    | p :: ps => if c = '/' then [] :: p :: ps else (c :: p) :: ps

/-- `aws.GetVolumeIDFromHandle` (package `aws`): scan the handle from the end
for the last `'/'` and return the suffix after it (`handle[i+1:]`); when no
`'/'` occurs, return the handle unchanged.  The backward index loop of the Go
code is expressed as a forward recursion computing the same suffix. -/
def afterLastSlash : List Char → List Char
  | [] => []
  | c :: cs => if '/' ∈ cs then afterLastSlash cs else if c = '/' then cs else c :: cs

/-- `aws.GetVolumeIDFromHandle` on `String`. -/
def getVolumeIDFromHandle (handle : String) : String :=
  String.mk (afterLastSlash handle.data)

/-- `extractEBSVolumeID(pv)`: CSI source first (require the EBS driver, return
the handle as-is); then the legacy source (keep the part after the last `'/'`
when one occurs, via `strings.Contains` / `strings.Split`); else fail. -/
def extractEBSVolumeID (pv : PersistentVolume) : Except TranslateError String :=
  match pv.spec.csi with
  | some csi =>
    if csi.driver = "ebs.csi.aws.com" then Except.ok csi.volumeHandle
    else Except.error (TranslateError.unsupportedDriver csi.driver)
  | none =>
    match pv.spec.awsElasticBlockStore with
    | some ebs =>
      let volumeID := ebs.volumeID
      let volumeID :=
        if '/' ∈ volumeID.data then String.mk ((splitOnSlash volumeID.data).getLastD [])
        else volumeID
      Except.ok volumeID
    | none => Except.error (TranslateError.notABlockVolume pv.name)

/-- The first zone value an expression yields in `extractAvailabilityZone`:
the standard topology key is tested first, then the legacy key. -/
def zoneOfExpr (e : NodeSelectorRequirement) : Option String :=
  if e.key = "topology.kubernetes.io/zone" ∧ e.values ≠ [] then e.values.head?
  else if e.key = "failure-domain.beta.kubernetes.io/zone" ∧ e.values ≠ [] then e.values.head?
  else none

/-- `extractAvailabilityZone(pv)`: walk the required node-selector terms and
their match expressions in order, returning the first zone value found;
`""` when there is no affinity or no matching expression. -/
def extractAvailabilityZone (pv : PersistentVolume) : String :=
  match pv.spec.nodeAffinity with
  | none => ""
  | some aff =>
    match aff.required with
    | none => ""
    | some sel =>
      let exprs := (sel.nodeSelectorTerms.map (·.matchExpressions)).flatten
      match exprs.findSome? zoneOfExpr with
      | some z => z
      | none => ""

/-- `buildNodeAffinityForZone(zone)`. -/
def buildNodeAffinityForZone (zone : String) : VolumeNodeAffinity :=
  { required := some
      { nodeSelectorTerms :=
          [{ matchExpressions :=
               [{ key := "topology.kubernetes.io/zone", op := "In", values := [zone] }] }] } }

/-- `getDestStorageClass(sourceStorageClass, mapping)`. -/
def getDestStorageClass (sourceStorageClass : String)
    (mapping : Option (List (String × String))) : String :=
  match mapping with
  | some m =>
    match m.lookup sourceStorageClass with
    | some dest => dest
    | none => sourceStorageClass
  | none => sourceStorageClass

/-- `copyStringMap(m)`: nil stays nil; otherwise a fresh copy, which in a pure
model is the same association list. -/
def copyStringMap (m : Option (List (String × String))) : Option (List (String × String)) :=
  match m with
  | none => none
  | some l => some l

/-- `buildPVSource(sourcePV, volumeID)`: the `(csi, awsElasticBlockStore)`
components of the destination `PersistentVolumeSource`. -/
def buildPVSource (sourcePV : PersistentVolume) (volumeID : String) :
    Option CSIPersistentVolumeSource × Option AWSElasticBlockStoreVolumeSource :=
  match sourcePV.spec.csi with
  | some csi =>
    (some { driver := csi.driver, volumeHandle := volumeID, fsType := csi.fsType,
            readOnly := csi.readOnly,
            volumeAttributes := copyStringMap csi.volumeAttributes }, none)
  | none =>
    match sourcePV.spec.awsElasticBlockStore with
    | some ebs =>
      (none, some { volumeID := volumeID, fsType := ebs.fsType,
                    partition := ebs.partition, readOnly := ebs.readOnly })
    | none => (none, none)

/-- `TranslationResult`. -/
structure TranslationResult where
  pv : PersistentVolume
  pvc : PersistentVolumeClaim
  volumeID : String
  availabilityZone : String
  deriving DecidableEq, Repr

/-- `TranslatePV(sourcePV, sourcePVC, config)`.  `none` models a nil pointer
argument. -/
def translatePV (sourcePV? : Option PersistentVolume)
    (sourcePVC? : Option PersistentVolumeClaim) (config : PVTranslationConfig) :
    Except TranslateError TranslationResult :=
  match sourcePV? with
  | none => Except.error TranslateError.nilSourcePV
  | some sourcePV =>
    match sourcePVC? with
    | none => Except.error TranslateError.nilSourcePVC
    | some sourcePVC =>
      match extractEBSVolumeID sourcePV with
      | Except.error e => Except.error e
      | Except.ok volumeID =>
        let az := extractAvailabilityZone sourcePV
        let destStorageClass :=
          getDestStorageClass sourcePV.spec.storageClassName config.storageClassMapping
        let destPVName := "migrated-" ++ config.destNamespace ++ "-" ++ config.destPVCName
        let src := buildPVSource sourcePV volumeID
        let destPV : PersistentVolume :=
          { name := destPVName
            uid := ""
            labels := [("migration.aqua.io/migrated", "true"),
                       ("migration.aqua.io/source-pv", sourcePV.name),
                       ("migration.aqua.io/dest-namespace", config.destNamespace),
                       ("migration.aqua.io/dest-pvc", config.destPVCName)]
            annotations := [("migration.aqua.io/source-pv-uid", sourcePV.uid),
                            ("migration.aqua.io/volume-id", volumeID)]
            spec :=
              { capacityStorage := sourcePV.spec.capacityStorage
                accessModes := sourcePV.spec.accessModes
                persistentVolumeReclaimPolicy := ReclaimPolicy.retain
                storageClassName := destStorageClass
                claimRef := some { apiVersion := "v1", kind := "PersistentVolumeClaim",
                                   namespace_ := config.destNamespace,
                                   name := config.destPVCName }
                csi := src.1
                awsElasticBlockStore := src.2
                volumeMode := sourcePV.spec.volumeMode
                nodeAffinity :=
                  if config.preserveNodeAffinity ∧ sourcePV.spec.nodeAffinity ≠ none then
                    sourcePV.spec.nodeAffinity
                  else if az ≠ "" then some (buildNodeAffinityForZone az)
                  else none } }
        let destPVC : PersistentVolumeClaim :=
          { name := config.destPVCName
            namespace_ := config.destNamespace
            uid := ""
            labels := [("migration.aqua.io/migrated", "true"),
                       ("migration.aqua.io/source-pvc", sourcePVC.name)]
            annotations := [("migration.aqua.io/source-pvc-uid", sourcePVC.uid),
                            ("migration.aqua.io/volume-id", volumeID)]
            spec :=
              { accessModes := sourcePVC.spec.accessModes
                requestsStorage := sourcePVC.spec.requestsStorage
                volumeName := destPVName
                storageClassName :=
                  if destStorageClass ≠ "" then some destStorageClass else none
                volumeMode := sourcePVC.spec.volumeMode } }
        Except.ok { pv := destPV, pvc := destPVC, volumeID := volumeID,
                    availabilityZone := az }

/-- `TranslatePV` with the post-call value of the caller's two objects made
explicit.  The Go function body writes only into the freshly allocated
`destPV` / `destPVC` / result objects and contains no assignment through the
`sourcePV` or `sourcePVC` pointers, so the caller's objects at return are the
unchanged inputs; this definition threads them through so that the frame
property is statable. -/
def translatePVTracked (sourcePV? : Option PersistentVolume)
    (sourcePVC? : Option PersistentVolumeClaim) (config : PVTranslationConfig) :
    Except TranslateError TranslationResult
      × Option PersistentVolume × Option PersistentVolumeClaim :=
  (translatePV sourcePV? sourcePVC? config, sourcePV?, sourcePVC?)

/-- `GetPVCNameForStatefulSetPod(volumeClaimTemplateName, stsName, index)`:
`<template>-<stsName>-<index>`. -/
def getPVCNameForStatefulSetPod (volumeClaimTemplateName stsName : String)
    (index : Nat) : String :=
  volumeClaimTemplateName ++ "-" ++ stsName ++ "-" ++ toString index

/-! ## Controller data model (`api/v1alpha1/types.go`) -/

/-- `appsv1.StatefulSetSpec`: the fields the controller reads or writes
(`Replicas`, `ServiceName`, `Template.Namespace`); every other field is
copied verbatim between source and destination and is collapsed into the
opaque `rest` component. -/
structure StatefulSetSpec where
  replicas : Nat
  serviceName : String
  templateNamespace : String
  rest : String
  deriving DecidableEq, Repr

/-- `appsv1.StatefulSet` (metadata fields the controller uses, plus spec). -/
structure StatefulSet where
  name : String
  namespace_ : String
  uid : String
  labels : List (String × String)
  annotations : List (String × String)
  spec : StatefulSetSpec
  deriving DecidableEq, Repr

/-- `ContextRef`. -/
structure ContextRef where
  kubeConfigSecret : String
  kubeConfigKey : String
  deriving DecidableEq, Repr

/-- `StatefulSetMigrationSpec`.  Durations in seconds; `none` models a nil
`*metav1.Duration` and a nil `map`. -/
structure StatefulSetMigrationSpec where
  migrationID : String
  sourceCluster : ContextRef
  sourceNamespace : String
  statefulSetName : String
  destCluster : ContextRef
  destNamespace : String
  force : Bool
  storageClassMapping : Option (List (String × String))
  volumeDetachTimeout : Option Nat
  podReadyTimeout : Option Nat
  deriving DecidableEq, Repr

/-- `MigratedPodInfo` (`migratedAt` is an abstract timestamp). -/
structure MigratedPodInfo where
  index : Nat
  podName : String
  volumeID : String
  migratedAt : Nat
  deriving DecidableEq, Repr

/-- `metav1.Condition` (fields the controller sets). -/
structure Condition where
  condType : String
  status : Bool
  reason : String
  message : String
  lastTransitionTime : Nat
  deriving DecidableEq, Repr

/-- `MigrationPhase` constants. -/
inductive MigrationPhase
  | pending
  | preFlightChecks
  | freezingSource
  | migratingPods
  | finalizing
  | completed
  | failed
  deriving DecidableEq, Repr

/-- `StatefulSetMigrationStatus`.  `phase = none` models the Go empty string
before initialisation.  `CurrentIndex` and `TotalReplicas` are Go `int`s that
the controller only ever sets to non-negative values (`0`, `i+1`, and an
`int32` replica count), hence `Nat`. -/
structure StatefulSetMigrationStatus where
  phase : Option MigrationPhase
  currentIndex : Nat
  totalReplicas : Nat
  migratedPods : List MigratedPodInfo
  conditions : List Condition
  lastError : String
  startTime : Option Nat
  completionTime : Option Nat
  sourceStatefulSetUID : String
  preservedPVs : List String
  deriving DecidableEq, Repr

/-- The zero-valued status a fresh `StatefulSetMigration` carries. -/
def initialStatus : StatefulSetMigrationStatus :=
  { phase := none, currentIndex := 0, totalReplicas := 0, migratedPods := [],
    conditions := [], lastError := "", startTime := none, completionTime := none,
    sourceStatefulSetUID := "", preservedPVs := [] }

/-! ## Controller helpers (`internal/controller/reconciler.go`) -/

/-- `setCondition`: replace the first condition with the same type, else
append. -/
def setCondition : List Condition → Condition → List Condition
  | [], c => [c]
  | c0 :: rest, c =>
    if c0.condType = c.condType then c :: rest else c0 :: setCondition rest c

/-- `failMigration`: set `Failed` phase, `lastError`, `completionTime`, and a
`Failed` condition. -/
def failMigration (st : StatefulSetMigrationStatus) (reason : String) (now : Nat) :
    StatefulSetMigrationStatus :=
  { st with phase := some MigrationPhase.failed
            lastError := reason
            completionTime := some now
            conditions := setCondition st.conditions
              { condType := "Failed", status := true, reason := "Failed",
                message := reason, lastTransitionTime := now } }

/-- A `Get` by name against the cluster's PV store. -/
def pvGet (pvs : List PersistentVolume) (name : String) : Option PersistentVolume :=
  pvs.find? (fun pv => pv.name = name)

/-- An `Update` against the cluster's PV store (replace by name). -/
def pvUpdate (pvs : List PersistentVolume) (pv : PersistentVolume) :
    List PersistentVolume :=
  pvs.map (fun q => if q.name = pv.name then pv else q)

/-- `patchPVsToRetain(ctx, cc, namespace, sts)`: iterate over every PVC the
`List` call returned for the namespace, skip claims with an empty
`spec.volumeName`, skip claims whose PV `Get` fails, patch the PV's reclaim
policy to `Retain` when it differs, and append the PV name to the result —
unconditionally.  The `sts` parameter is unused in the Go function (its only
trace is a comment about a naming-convention check that is never performed);
it is kept here to mirror the signature.  Returns the updated PV store and
the accumulated names. -/
def patchPVsToRetain (sts : StatefulSet) :
    List PersistentVolumeClaim → List PersistentVolume →
    List PersistentVolume × List String
  | [], pvs => (pvs, [])
  | pvc :: restPvcs, pvs =>
    if pvc.spec.volumeName = "" then patchPVsToRetain sts restPvcs pvs
    else
      match pvGet pvs pvc.spec.volumeName with
      | none => patchPVsToRetain sts restPvcs pvs
      | some pv =>
        let step :=
          if pv.spec.persistentVolumeReclaimPolicy ≠ ReclaimPolicy.retain then
            let patched :=
              { pv with spec :=
                  { pv.spec with persistentVolumeReclaimPolicy := ReclaimPolicy.retain } }
            (pvUpdate pvs patched, patched)
          else (pvs, pv)
        let rec_ := patchPVsToRetain sts restPvcs step.1
        (rec_.1, step.2.name :: rec_.2)

/-- `createDestinationStatefulSet`: re-read the source StatefulSet from the
source cluster (the argument models that `Get`'s outcome — the StatefulSet
was already deleted with orphan propagation, so the read races garbage
collection), fail when the read fails, otherwise build the destination
object: copied labels, a `migrated-from` annotation, a deep copy of the
source spec with `replicas = 1` and the template namespace rewritten. -/
def createDestinationStatefulSet (sourceSTSRead : Except String StatefulSet)
    (spec : StatefulSetMigrationSpec) : Except String StatefulSet :=
  match sourceSTSRead with
  | Except.error e =>
    Except.error ("source StatefulSet no longer available for copying spec: " ++ e)
  | Except.ok sourceSTS =>
    Except.ok
      { name := spec.statefulSetName
        namespace_ := spec.destNamespace
        uid := ""
        labels := sourceSTS.labels
        annotations := [("migration.aqua.io/migrated-from",
                         spec.sourceNamespace ++ "/" ++ spec.statefulSetName)]
        spec := { sourceSTS.spec with
                    replicas := 1
                    templateNamespace := spec.destNamespace } }

/-! ## Pre-flight checks (`reconcilePreFlightChecks`) -/

/-- Outcome of a Kubernetes `Get` whose caller distinguishes `IsNotFound`
from other errors. -/
inductive GetResult (α : Type)
  | found (a : α)
  | notFound
  | apiError (msg : String)
  deriving DecidableEq, Repr

/-- The external observations `reconcilePreFlightChecks` makes, in the order
the code makes them.  `none` in the first four fields means the call
succeeded; `some e` carries the error string. -/
structure PreFlightEnv where
  sourceClient : Option String
  destClient : Option String
  sourceConn : Option String
  destConn : Option String
  sourceSTS : Except String StatefulSet
  destNamespace : GetResult Unit
  destSTS : GetResult Unit
  destService : GetResult Unit
  deriving Repr

/-- All four connectivity steps (client resolution and discovery probe for
each cluster) succeeded. -/
def preFlightConnOk (env : PreFlightEnv) : Prop :=
  env.sourceClient = none ∧ env.destClient = none ∧
  env.sourceConn = none ∧ env.destConn = none

/-- The two status assignments after the source StatefulSet `Get` succeeds:
`m.Status.SourceStatefulSetUID = string(sourceSTS.UID)` and
`m.Status.TotalReplicas = int(*sourceSTS.Spec.Replicas)`. -/
def captureSourceSTS (st : StatefulSetMigrationStatus) (sts : StatefulSet) :
    StatefulSetMigrationStatus :=
  { st with sourceStatefulSetUID := sts.uid
            totalReplicas := sts.spec.replicas }

/-- The status persisted when every pre-flight check passes: source UID and
replicas captured, phase `FreezingSource`, a passed `PreFlightChecks`
condition. -/
def preFlightPassedStatus (st : StatefulSetMigrationStatus) (sts : StatefulSet)
    (now : Nat) : StatefulSetMigrationStatus :=
  { captureSourceSTS st sts with
      phase := some MigrationPhase.freezingSource
      conditions := setCondition st.conditions
        { condType := "PreFlightChecks", status := true, reason := "Passed",
          message := "All pre-flight checks passed", lastTransitionTime := now } }

/-- `reconcilePreFlightChecks(ctx, m)`: the sequential checks, each failure
short-circuiting through `failMigration` with the code's message.  The second
component lists the mutating requests issued against the source cluster
during this phase — the Go function only ever issues reads (`Get`,
discovery), so it is always `[]`. -/
def reconcilePreFlightChecks (env : PreFlightEnv) (spec : StatefulSetMigrationSpec)
    (st : StatefulSetMigrationStatus) (now : Nat) :
    StatefulSetMigrationStatus × List String :=
  match env.sourceClient with
  | some e => (failMigration st ("Failed to connect to source cluster: " ++ e) now, [])
  | none =>
  match env.destClient with
  | some e => (failMigration st ("Failed to connect to destination cluster: " ++ e) now, [])
  | none =>
  match env.sourceConn with
  | some e => (failMigration st ("Source cluster connectivity check failed: " ++ e) now, [])
  | none =>
  match env.destConn with
  | some e =>
    (failMigration st ("Destination cluster connectivity check failed: " ++ e) now, [])
  | none =>
  match env.sourceSTS with
  | Except.error e => (failMigration st ("Source StatefulSet not found: " ++ e) now, [])
  | Except.ok sourceSTS =>
  let st2 := captureSourceSTS st sourceSTS
  match env.destNamespace with
  | GetResult.notFound =>
    (failMigration st2
      ("Destination namespace \"" ++ spec.destNamespace ++ "\" does not exist") now, [])
  | GetResult.apiError e =>
    (failMigration st2 ("Failed to check destination namespace: " ++ e) now, [])
  | GetResult.found _ =>
  match env.destSTS with
  | GetResult.found _ =>
    (failMigration st2
      ("StatefulSet \"" ++ spec.statefulSetName ++ "\" already exists in destination namespace \""
        ++ spec.destNamespace ++ "\"") now, [])
  | GetResult.apiError e =>
    (failMigration st2 ("Failed to check destination StatefulSet: " ++ e) now, [])
  | GetResult.notFound =>
  let serviceCheck :
      Option String :=
    if sourceSTS.spec.serviceName = "" then none
    else
      match env.destService with
      | GetResult.found _ => none
      | GetResult.notFound =>
        if spec.force then none
        else some ("Headless service \"" ++ sourceSTS.spec.serviceName
          ++ "\" not found in destination namespace (required for StatefulSet)")
      | GetResult.apiError e => some ("Failed to check destination service: " ++ e)
  match serviceCheck with
  | some msg => (failMigration st2 msg now, [])
  | none => (preFlightPassedStatus st sourceSTS now, [])

/-! ## The reconcile state machine as a step relation

One `ReconcileStep` is one persisted status transition: the reconciler
mutates its in-memory copy and persists it with a single
`r.Status().Update(ctx, m)`; a failed update persists nothing (the next
reconcile re-reads the stored status), so only the successful updates appear
as steps.  Free parameters (`now`, pod/volume names, the preflight
environment, the freeze results, error messages) model the inputs of the
corresponding reconcile invocation.  `Completed` and `Failed` have no
outgoing transitions (`Reconcile` returns immediately on them). -/

inductive ReconcileStep : StatefulSetMigrationStatus → StatefulSetMigrationStatus → Prop
  | initPhase (st : StatefulSetMigrationStatus)
      (h : st.phase = none) :
      ReconcileStep st { st with phase := some MigrationPhase.pending }
  | pendingStep (st : StatefulSetMigrationStatus) (now : Nat)
      (h : st.phase = some MigrationPhase.pending) :
      ReconcileStep st
        { st with phase := some MigrationPhase.preFlightChecks, startTime := some now }
  | preFlightStep (st : StatefulSetMigrationStatus) (env : PreFlightEnv)
      (spec : StatefulSetMigrationSpec) (now : Nat)
      (h : st.phase = some MigrationPhase.preFlightChecks) :
      ReconcileStep st (reconcilePreFlightChecks env spec st now).1
  | freezeOk (st : StatefulSetMigrationStatus) (preserved : List String) (now : Nat)
      (h : st.phase = some MigrationPhase.freezingSource) :
      ReconcileStep st
        { st with phase := some MigrationPhase.migratingPods
                  currentIndex := 0
                  preservedPVs := preserved
                  conditions := setCondition st.conditions
                    { condType := "SourceFrozen", status := true, reason := "Frozen",
                      message := "Source cluster prepared for migration",
                      lastTransitionTime := now } }
  | freezeFail (st : StatefulSetMigrationStatus) (msg : String) (now : Nat)
      (h : st.phase = some MigrationPhase.freezingSource) :
      ReconcileStep st (failMigration st msg now)
  | migrateAdvance (st : StatefulSetMigrationStatus) (podName volumeID : String) (now : Nat)
      (h : st.phase = some MigrationPhase.migratingPods)
      (hlt : st.currentIndex < st.totalReplicas) :
      ReconcileStep st
        { st with currentIndex := st.currentIndex + 1
                  migratedPods := st.migratedPods ++
                    [{ index := st.currentIndex, podName := podName,
                       volumeID := volumeID, migratedAt := now }] }
  | migrateFail (st : StatefulSetMigrationStatus) (msg : String) (now : Nat)
      (h : st.phase = some MigrationPhase.migratingPods)
      (hlt : st.currentIndex < st.totalReplicas) :
      ReconcileStep st (failMigration st msg now)
  | migrateDone (st : StatefulSetMigrationStatus)
      (h : st.phase = some MigrationPhase.migratingPods)
      (hge : st.totalReplicas ≤ st.currentIndex) :
      ReconcileStep st { st with phase := some MigrationPhase.finalizing }
  | finalizeOk (st : StatefulSetMigrationStatus) (now : Nat)
      (h : st.phase = some MigrationPhase.finalizing) :
      ReconcileStep st
        { st with phase := some MigrationPhase.completed
                  completionTime := some now
                  conditions := setCondition st.conditions
                    { condType := "Complete", status := true, reason := "Completed",
                      message := "Migration completed successfully",
                      lastTransitionTime := now } }
  | finalizeFail (st : StatefulSetMigrationStatus) (msg : String) (now : Nat)
      (h : st.phase = some MigrationPhase.finalizing) :
      ReconcileStep st (failMigration st msg now)

/-- Statuses reachable from the fresh resource by reconcile steps. -/
def ReachableStatus (st : StatefulSetMigrationStatus) : Prop :=
  Relation.ReflTransGen ReconcileStep initialStatus st

/-- The progress invariant of the status: the `migrated` list is dense
(`migrated[k].index == k`), its length equals `currentIndex`, and before the
`MigratingPods` phase first begins the index is still zero. -/
def StatusInv (st : StatefulSetMigrationStatus) : Prop :=
  st.migratedPods.length = st.currentIndex ∧
  (∀ (k : Nat) (e : MigratedPodInfo), st.migratedPods[k]? = some e → e.index = k) ∧
  ((st.phase = none ∨ st.phase = some MigrationPhase.pending ∨
    st.phase = some MigrationPhase.preFlightChecks ∨
    st.phase = some MigrationPhase.freezingSource) → st.currentIndex = 0)

/-! ## Concrete fixtures used by witnesses and counterexamples -/

/-- A volume that the cloud reports `available` from the first read on. -/
def readsAllAvailable : Nat → Option VolumeState := fun _ => some VolumeState.available

/-- A volume that is `in-use` at the initial read and `available` from the
first tick on. -/
def readsInUseThenAvailable : Nat → Option VolumeState :=
  fun n => some (if n = 0 then VolumeState.inUse else VolumeState.available)

/-- A volume that reports `error` at the initial read and `available` from
the first tick on. -/
def readsErrorThenAvailable : Nat → Option VolumeState :=
  fun n => some (if n = 0 then VolumeState.error else VolumeState.available)

/-- A volume that is `in-use` at the initial read and `error` afterwards. -/
def readsInUseThenError : Nat → Option VolumeState :=
  fun n => some (if n = 0 then VolumeState.inUse else VolumeState.error)

/-- A volume that is `in-use` at the initial read and `deleted` afterwards. -/
def readsInUseThenDeleted : Nat → Option VolumeState :=
  fun n => some (if n = 0 then VolumeState.inUse else VolumeState.deleted)

/-- A volume that never leaves `in-use`. -/
def readsAlwaysInUse : Nat → Option VolumeState := fun _ => some VolumeState.inUse

/-- A source PV using the modern CSI representation with the EBS driver. -/
def csiPV : PersistentVolume :=
  { name := "pv-csi", uid := "uid-csi", labels := [], annotations := [],
    spec := { capacityStorage := "100Gi", accessModes := ["ReadWriteOnce"],
              persistentVolumeReclaimPolicy := ReclaimPolicy.delete,
              storageClassName := "gp2", claimRef := none,
              csi := some { driver := "ebs.csi.aws.com", volumeHandle := "vol-abc123",
                            fsType := "ext4", readOnly := false,
                            volumeAttributes := none },
              awsElasticBlockStore := none, volumeMode := none, nodeAffinity := none } }

/-- A source PVC bound to `csiPV`. -/
def csiPVC : PersistentVolumeClaim :=
  { name := "data-web-0", namespace_ := "prod", uid := "uid-pvc",
    labels := [], annotations := [],
    spec := { accessModes := ["ReadWriteOnce"], requestsStorage := "100Gi",
              volumeName := "pv-csi", storageClassName := some "gp2",
              volumeMode := none } }

/-- The spec's scenario 2: a source PV whose only volume source is the legacy
block store with id `aws://eu-west-1b/vol-legacy1`, no node affinity. -/
def legacyPV : PersistentVolume :=
  { name := "pv-legacy", uid := "uid-legacy", labels := [], annotations := [],
    spec := { capacityStorage := "10Gi", accessModes := ["ReadWriteOnce"],
              persistentVolumeReclaimPolicy := ReclaimPolicy.delete,
              storageClassName := "gp2", claimRef := none, csi := none,
              awsElasticBlockStore := some { volumeID := "aws://eu-west-1b/vol-legacy1",
                                             fsType := "ext4", partition := 0,
                                             readOnly := false },
              volumeMode := none, nodeAffinity := none } }

/-- A source PVC bound to `legacyPV`. -/
def legacyPVC : PersistentVolumeClaim :=
  { name := "data-web-0", namespace_ := "prod", uid := "uid-legacy-pvc",
    labels := [], annotations := [],
    spec := { accessModes := ["ReadWriteOnce"], requestsStorage := "10Gi",
              volumeName := "pv-legacy", storageClassName := some "gp2",
              volumeMode := none } }

/-- A translation config as the controller builds it (`PreserveNodeAffinity`
is always `true` there). -/
def legacyConfig : PVTranslationConfig :=
  { destNamespace := "dest-ns", destPVCName := "data-web-0",
    storageClassMapping := none, preserveNodeAffinity := true }

/-- The source StatefulSet `web` with 3 replicas and claim template `data`. -/
def webSTS : StatefulSet :=
  { name := "web", namespace_ := "prod", uid := "uid-web",
    labels := [("app", "web")], annotations := [],
    spec := { replicas := 3, serviceName := "web-svc",
              templateNamespace := "prod", rest := "web-template" } }

/-- A PV bound by the group's claim `data-web-0`, reclaim policy `Delete`. -/
def pvA : PersistentVolume :=
  { name := "pv-a", uid := "uid-a", labels := [], annotations := [],
    spec := { capacityStorage := "10Gi", accessModes := ["ReadWriteOnce"],
              persistentVolumeReclaimPolicy := ReclaimPolicy.delete,
              storageClassName := "gp2", claimRef := none, csi := none,
              awsElasticBlockStore := none, volumeMode := none, nodeAffinity := none } }

/-- A PV bound by a claim that does not belong to the migrated group,
reclaim policy `Delete`. -/
def pvForeign : PersistentVolume :=
  { name := "pv-foreign", uid := "uid-f", labels := [], annotations := [],
    spec := { capacityStorage := "5Gi", accessModes := ["ReadWriteOnce"],
              persistentVolumeReclaimPolicy := ReclaimPolicy.delete,
              storageClassName := "gp2", claimRef := none, csi := none,
              awsElasticBlockStore := none, volumeMode := none, nodeAffinity := none } }

/-- A PV bound by a claim outside the group and already `Retain`. -/
def pvRet : PersistentVolume :=
  { name := "pv-ret", uid := "uid-r", labels := [], annotations := [],
    spec := { capacityStorage := "5Gi", accessModes := ["ReadWriteOnce"],
              persistentVolumeReclaimPolicy := ReclaimPolicy.retain,
              storageClassName := "gp2", claimRef := none, csi := none,
              awsElasticBlockStore := none, volumeMode := none, nodeAffinity := none } }

/-- The group's claim for index 0, bound to `pv-a`. -/
def pvcDataWeb0 : PersistentVolumeClaim :=
  { name := "data-web-0", namespace_ := "prod", uid := "u0",
    labels := [], annotations := [],
    spec := { accessModes := ["ReadWriteOnce"], requestsStorage := "10Gi",
              volumeName := "pv-a", storageClassName := some "gp2",
              volumeMode := none } }

/-- A claim in the same namespace that does not belong to the group
(`cache-other-0` does not match `data-web-<i>`), bound to `pv-foreign`. -/
def pvcForeign : PersistentVolumeClaim :=
  { name := "cache-other-0", namespace_ := "prod", uid := "uf",
    labels := [], annotations := [],
    spec := { accessModes := ["ReadWriteOnce"], requestsStorage := "5Gi",
              volumeName := "pv-foreign", storageClassName := some "gp2",
              volumeMode := none } }

/-- Another claim outside the group, bound to the already-`Retain` `pv-ret`. -/
def pvcRetained : PersistentVolumeClaim :=
  { name := "logs-other-0", namespace_ := "prod", uid := "ur",
    labels := [], annotations := [],
    spec := { accessModes := ["ReadWriteOnce"], requestsStorage := "5Gi",
              volumeName := "pv-ret", storageClassName := some "gp2",
              volumeMode := none } }

/-- A claim with no bound volume. -/
def pvcUnbound : PersistentVolumeClaim :=
  { name := "data-web-9", namespace_ := "prod", uid := "u9",
    labels := [], annotations := [],
    spec := { accessModes := ["ReadWriteOnce"], requestsStorage := "10Gi",
              volumeName := "", storageClassName := some "gp2",
              volumeMode := none } }

/-- A migration spec for moving `web` from `prod` to `dest-ns`. -/
def exMigrationSpec : StatefulSetMigrationSpec :=
  { migrationID := "mig-1",
    sourceCluster := { kubeConfigSecret := "src-kc", kubeConfigKey := "" },
    sourceNamespace := "prod", statefulSetName := "web",
    destCluster := { kubeConfigSecret := "dst-kc", kubeConfigKey := "" },
    destNamespace := "dest-ns", force := false, storageClassMapping := none,
    volumeDetachTimeout := none, podReadyTimeout := none }

/-- A pre-flight environment where everything is healthy except that a
StatefulSet of the same name already exists in the destination namespace. -/
def conflictEnv : PreFlightEnv :=
  { sourceClient := none, destClient := none, sourceConn := none, destConn := none,
    sourceSTS := Except.ok webSTS, destNamespace := GetResult.found (),
    destSTS := GetResult.found (), destService := GetResult.notFound }

/-! ## Theorems: Cloud Volume Waiter -/

/-- Each state handed to `OnPoll` by the ticker loop is the state the
corresponding read returned: the `j`-th entry of the poll trace of
`waitLoop … k fuel` came from read number `k + j`. -/
theorem waitLoop_polls (reads : Nat → Option VolumeState) (volumeID : String) (tmo : Nat) :
    ∀ (fuel k j : Nat) (s : VolumeState),
      ((waitLoop reads volumeID tmo k fuel).2)[j]? = some s → reads (k + j) = some s := by
  intro fuel
  induction fuel with
  | zero => intro k j s h; simp [waitLoop] at h
  | succ n ih =>
    intro k j s h
    rw [waitLoop] at h
    cases hr : reads k with
    | none => rw [hr] at h; simp at h
    | some s0 =>
      rw [hr] at h
      dsimp only at h
      by_cases h1 : s0 = VolumeState.available
      · rw [if_pos h1] at h
        rcases j with _ | j
        · simp at h; simp [hr, h]
        · simp at h
      · rw [if_neg h1] at h
        by_cases h2 : s0 = VolumeState.error
        · rw [if_pos h2] at h
          rcases j with _ | j
          · simp at h; simp [hr, h]
          · simp at h
        · rw [if_neg h2] at h
          by_cases h3 : s0 = VolumeState.deleted ∨ s0 = VolumeState.deleting
          · rw [if_pos h3] at h
            rcases j with _ | j
            · simp at h; simp [hr, h]
            · simp at h
          · rw [if_neg h3] at h
            rcases j with _ | j
            · simp at h; simp [hr, h]
            · simp only [List.getElem?_cons_succ] at h
              rw [show k + (j + 1) = (k + 1) + j by omega]
              exact ih (k + 1) j s h

/-- A read result that lets the ticker loop continue waiting: a successful
read whose state is none of `available`, `error`, `deleted`, `deleting`. -/
def ContinueRead (reads : Nat → Option VolumeState) (i : Nat) : Prop :=
  ∃ s, reads i = some s ∧ s ≠ VolumeState.available ∧ s ≠ VolumeState.error ∧
    s ≠ VolumeState.deleted ∧ s ≠ VolumeState.deleting

/-- If read `j` (within the fuel window starting at `k`) shows `error` and
every earlier read in the window lets the loop continue, the loop fails with
the `ErrorState` error. -/
theorem waitLoop_error_state (reads : Nat → Option VolumeState) (volumeID : String)
    (tmo : Nat) :
    ∀ (fuel k j : Nat), k ≤ j → j < k + fuel →
      reads j = some VolumeState.error →
      (∀ i, k ≤ i → i < j → ContinueRead reads i) →
      (waitLoop reads volumeID tmo k fuel).1 =
        Except.error (WaitError.errorState volumeID) := by
  intro fuel
  induction fuel with
  | zero => intro k j h1 h2; omega
  | succ n ih =>
    intro k j hkj hlt hj hprev
    rw [waitLoop]
    rcases Nat.eq_or_lt_of_le hkj with heq | hklt
    · subst heq
      rw [hj]
      simp
    · obtain ⟨s, hs, hs1, hs2, hs3, hs4⟩ := hprev k (Nat.le_refl k) hklt
      rw [hs]
      dsimp only
      rw [if_neg hs1, if_neg hs2, if_neg (by simp [hs3, hs4])]
      exact ih (k + 1) j hklt (by omega) hj
        (fun i hi1 hi2 => hprev i (by omega) hi2)

/-- If read `j` (within the fuel window) shows `deleted` or `deleting` and
every earlier read in the window lets the loop continue, the loop fails with
the `VolumeGone` error. -/
theorem waitLoop_volume_gone (reads : Nat → Option VolumeState) (volumeID : String)
    (tmo : Nat) :
    ∀ (fuel k j : Nat), k ≤ j → j < k + fuel →
      (reads j = some VolumeState.deleted ∨ reads j = some VolumeState.deleting) →
      (∀ i, k ≤ i → i < j → ContinueRead reads i) →
      (waitLoop reads volumeID tmo k fuel).1 =
        Except.error (WaitError.volumeGone volumeID) := by
  intro fuel
  induction fuel with
  | zero => intro k j h1 h2; omega
  | succ n ih =>
    intro k j hkj hlt hj hprev
    rw [waitLoop]
    rcases Nat.eq_or_lt_of_le hkj with heq | hklt
    · subst heq
      rcases hj with hj | hj <;> rw [hj] <;> simp
    · obtain ⟨s, hs, hs1, hs2, hs3, hs4⟩ := hprev k (Nat.le_refl k) hklt
      rw [hs]
      dsimp only
      rw [if_neg hs1, if_neg hs2, if_neg (by simp [hs3, hs4])]
      exact ih (k + 1) j hklt (by omega) hj
        (fun i hi1 hi2 => hprev i (by omega) hi2)

/-- If every read in the fuel window lets the loop continue, the loop runs out
of fuel and fails with the timeout error carrying `timeoutMessage`. -/
theorem waitLoop_runs_out (reads : Nat → Option VolumeState) (volumeID : String)
    (tmo : Nat) :
    ∀ (fuel k : Nat),
      (∀ i, k ≤ i → i < k + fuel → ContinueRead reads i) →
      (waitLoop reads volumeID tmo k fuel).1 =
        Except.error (WaitError.timeout (timeoutMessage volumeID tmo)) := by
  intro fuel
  induction fuel with
  | zero => intro k _; rw [waitLoop]
  | succ n ih =>
    intro k hall
    obtain ⟨s, hs, hs1, hs2, hs3, hs4⟩ := hall k (Nat.le_refl k) (by omega)
    rw [waitLoop, hs]
    dsimp only
    rw [if_neg hs1, if_neg hs2, if_neg (by simp [hs3, hs4])]
    exact ih (k + 1) (fun i hi1 hi2 => hall i (by omega) (by omega))

/-- C5 (amended): `waitForVolumeDetach` performs an immediate read before the
ticker; when that initial read shows `available` it returns success at once
without invoking `onPoll`; otherwise `onPoll` is invoked synchronously after
each read — the initial read's state is the first `onPoll` argument and the
`j`-th `onPoll` argument equals the `j`-th read's state. -/
theorem waitForVolumeDetach_immediate_read_onPoll (reads : Nat → Option VolumeState)
    (volumeID : String) (cfg : WaitForVolumeDetachConfig) :
    (reads 0 = some VolumeState.available →
      waitForVolumeDetach reads volumeID cfg = (Except.ok (), [])) ∧
    (∀ s0, reads 0 = some s0 → s0 ≠ VolumeState.available →
      ((waitForVolumeDetach reads volumeID cfg).2).head? = some s0) ∧
    (∀ j s, ((waitForVolumeDetach reads volumeID cfg).2)[j]? = some s →
      reads j = some s) := by
  refine ⟨?_, ?_, ?_⟩
  · intro h
    simp only [waitForVolumeDetach]
    rw [h]
    simp
  · intro s0 h hne
    simp only [waitForVolumeDetach]
    rw [h]
    dsimp only
    rw [if_neg hne]
    simp
  · intro j s h
    cases h0 : reads 0 with
    | none =>
      simp only [waitForVolumeDetach] at h
      rw [h0] at h
      simp at h
    | some s0 =>
      simp only [waitForVolumeDetach] at h
      rw [h0] at h
      dsimp only at h
      by_cases hav : s0 = VolumeState.available
      · rw [if_pos hav] at h
        simp at h
      · rw [if_neg hav] at h
        dsimp only at h
        rcases j with _ | j
        · simp at h
          rw [h0, h]
        · simp only [List.getElem?_cons_succ] at h
          have hp := waitLoop_polls reads volumeID (effectiveTimeout cfg) _ 1 j s h
          rw [show j + 1 = 1 + j by omega]
          exact hp

/-- C5 counterexample: when every read shows `available`, the run performs the
initial read and succeeds with an empty `onPoll` trace — `onPoll` was not
invoked after the initial read, which the claim requires. -/
theorem waitForVolumeDetach_onPoll_initial_counterexample :
    waitForVolumeDetach readsAllAvailable "vol-x" defaultWaitConfig = (Except.ok (), []) ∧
    ¬ ((waitForVolumeDetach readsAllAvailable "vol-x" defaultWaitConfig).2).head?
        = some VolumeState.available := by
  refine ⟨rfl, ?_⟩
  rw [show waitForVolumeDetach readsAllAvailable "vol-x" defaultWaitConfig
        = (Except.ok (), []) from rfl]
  simp

/-- Witness for C5 at a volume that is `in-use` initially: the initial read's
state is the first `onPoll` argument. -/
theorem waitForVolumeDetach_immediate_read_onPoll_witness :
    ((waitForVolumeDetach readsInUseThenAvailable "vol-a" defaultWaitConfig).2).head?
      = some VolumeState.inUse :=
  (waitForVolumeDetach_immediate_read_onPoll readsInUseThenAvailable "vol-a"
      defaultWaitConfig).2.1 VolumeState.inUse rfl (by decide)

/-- C6 (amended): during the ticker loop (reads `1 … numTicks`, all strictly
before the deadline), a read showing `error` fails with `ErrorState` and a
read showing `deleted`/`deleting` fails with `VolumeGone`, provided no earlier
loop read terminated the wait; the initial read is checked only against
`available`, so these clauses apply to loop reads.  When every loop read up to
the deadline lets the loop continue, the wait fails with the timeout error,
whose message contains the effective timeout and the volume id (last
conjunct: explicit decomposition of the message). -/
theorem waitForVolumeDetach_failure_modes (reads : Nat → Option VolumeState)
    (volumeID : String) (cfg : WaitForVolumeDetachConfig) :
    (∀ s0 j, reads 0 = some s0 → s0 ≠ VolumeState.available →
      1 ≤ j → j ≤ numTicks (effectiveTimeout cfg) (effectivePollInterval cfg) →
      reads j = some VolumeState.error →
      (∀ i, 1 ≤ i → i < j → ContinueRead reads i) →
      (waitForVolumeDetach reads volumeID cfg).1 =
        Except.error (WaitError.errorState volumeID)) ∧
    (∀ s0 j, reads 0 = some s0 → s0 ≠ VolumeState.available →
      1 ≤ j → j ≤ numTicks (effectiveTimeout cfg) (effectivePollInterval cfg) →
      (reads j = some VolumeState.deleted ∨ reads j = some VolumeState.deleting) →
      (∀ i, 1 ≤ i → i < j → ContinueRead reads i) →
      (waitForVolumeDetach reads volumeID cfg).1 =
        Except.error (WaitError.volumeGone volumeID)) ∧
    (∀ s0, reads 0 = some s0 → s0 ≠ VolumeState.available →
      (∀ i, 1 ≤ i → i ≤ numTicks (effectiveTimeout cfg) (effectivePollInterval cfg) →
        ContinueRead reads i) →
      (waitForVolumeDetach reads volumeID cfg).1 =
        Except.error (WaitError.timeout (timeoutMessage volumeID (effectiveTimeout cfg)))) ∧
    (timeoutMessage volumeID (effectiveTimeout cfg) =
      "timeout waiting for volume " ++ (volumeID ++ (" to detach (waited " ++
        (toString (effectiveTimeout cfg) ++ "s)")))) := by
  refine ⟨?_, ?_, ?_, ?_⟩
  · intro s0 j h0 hne h1j hjn hj hprev
    simp only [waitForVolumeDetach]
    rw [h0]
    dsimp only
    rw [if_neg hne]
    dsimp only
    exact waitLoop_error_state reads volumeID _ _ 1 j h1j (by omega) hj hprev
  · intro s0 j h0 hne h1j hjn hj hprev
    simp only [waitForVolumeDetach]
    rw [h0]
    dsimp only
    rw [if_neg hne]
    dsimp only
    exact waitLoop_volume_gone reads volumeID _ _ 1 j h1j (by omega) hj hprev
  · intro s0 h0 hne hall
    simp only [waitForVolumeDetach]
    rw [h0]
    dsimp only
    rw [if_neg hne]
    dsimp only
    exact waitLoop_runs_out reads volumeID _ _ 1 (fun i hi1 hi2 => hall i hi1 (by omega))
  · simp [timeoutMessage, String.append_assoc]

/-- C6 counterexample: the claim quantifies over every read, but the initial
read is checked only against `available` — a volume whose initial read shows
`error` and whose next read shows `available` makes the wait succeed instead
of failing with `ErrorState`. -/
theorem waitForVolumeDetach_initial_error_counterexample :
    readsErrorThenAvailable 0 = some VolumeState.error ∧
    (waitForVolumeDetach readsErrorThenAvailable "vol-e" defaultWaitConfig).1 =
      Except.ok () := by
  exact ⟨rfl, rfl⟩

/-- Witness for C6 at a volume that is `in-use` initially and `error` at the
first tick. -/
theorem waitForVolumeDetach_failure_modes_witness :
    (waitForVolumeDetach readsInUseThenError "vol-err" defaultWaitConfig).1 =
      Except.error (WaitError.errorState "vol-err") :=
  (waitForVolumeDetach_failure_modes readsInUseThenError "vol-err" defaultWaitConfig).1
    VolumeState.inUse 1 rfl (by decide) (by omega) (by decide) rfl
    (fun i hi1 hi2 => (Nat.lt_irrefl 1 (Nat.lt_of_le_of_lt hi1 hi2)).elim)

/-- C10: a zero poll interval or zero timeout is replaced by the defaults
(5 s and 5 min = 300 s) before polling, and the effective values are always
positive — a zero-valued configuration neither busy-loops nor starts with an
elapsed deadline. -/
theorem waitForVolumeDetach_default_config (reads : Nat → Option VolumeState)
    (volumeID : String) (cfg : WaitForVolumeDetachConfig) :
    (cfg.pollInterval = 0 →
      waitForVolumeDetach reads volumeID cfg =
        waitForVolumeDetach reads volumeID { cfg with pollInterval := 5 }) ∧
    (cfg.timeout = 0 →
      waitForVolumeDetach reads volumeID cfg =
        waitForVolumeDetach reads volumeID { cfg with timeout := 300 }) ∧
    0 < effectivePollInterval cfg ∧ 0 < effectiveTimeout cfg := by
  refine ⟨?_, ?_, ?_, ?_⟩
  · intro h
    simp [waitForVolumeDetach, effectivePollInterval, effectiveTimeout, h]
  · intro h
    simp [waitForVolumeDetach, effectivePollInterval, effectiveTimeout, h]
  · unfold effectivePollInterval
    split <;> omega
  · unfold effectiveTimeout
    split <;> omega

/-- Witness for C10 at the all-zero configuration. -/
theorem waitForVolumeDetach_default_config_witness :
    waitForVolumeDetach readsAllAvailable "vol-w" { pollInterval := 0, timeout := 0 } =
      waitForVolumeDetach readsAllAvailable "vol-w" { pollInterval := 5, timeout := 0 } ∧
    0 < effectivePollInterval { pollInterval := 0, timeout := 0 } :=
  ⟨(waitForVolumeDetach_default_config readsAllAvailable "vol-w"
      { pollInterval := 0, timeout := 0 }).1 rfl,
   (waitForVolumeDetach_default_config readsAllAvailable "vol-w"
      { pollInterval := 0, timeout := 0 }).2.2.1⟩

/-! ## Theorems: Volume Translator -/

/-- `strings.Split` never returns an empty slice. -/
theorem splitOnSlash_ne_nil (l : List Char) : splitOnSlash l ≠ [] := by
  cases l with
  | nil => simp [splitOnSlash]
  | cons c cs =>
    rw [splitOnSlash]
    cases hsp : splitOnSlash cs with
    | nil => simp
    | cons p ps =>
      by_cases hc : c = '/'
      · simp [hc]
      · simp [hc]

/-- Splitting a slash-free string returns the one-element slice. -/
theorem splitOnSlash_no_slash (l : List Char) (h : '/' ∉ l) : splitOnSlash l = [l] := by
  induction l with
  | nil => rfl
  | cons c cs ih =>
    have hc : c ≠ '/' := fun hc => h (by simp [hc])
    have hcs : '/' ∉ cs := fun hm => h (List.mem_cons_of_mem c hm)
    rw [splitOnSlash, ih hcs]
    simp [hc]

/-- A string containing a slash splits into at least two parts. -/
theorem splitOnSlash_two_le (l : List Char) (h : '/' ∈ l) :
    2 ≤ (splitOnSlash l).length := by
  induction l with
  | nil => simp at h
  | cons c cs ih =>
    rw [splitOnSlash]
    cases hsp : splitOnSlash cs with
    | nil => exact absurd hsp (splitOnSlash_ne_nil cs)
    | cons p ps =>
      dsimp only
      by_cases hc : c = '/'
      · rw [if_pos hc]
        simp
      · rw [if_neg hc]
        have hcs : '/' ∈ cs := by
          rcases List.mem_cons.mp h with h1 | h1
          · exact absurd h1.symm hc
          · exact h1
        have h2 := ih hcs
        rw [hsp] at h2
        simpa using h2

/-- `getLastD` of a non-empty list does not depend on the default. -/
theorem getLastD_irrel {α : Type} (l : List α) (a b : α) (h : l ≠ []) :
    l.getLastD a = l.getLastD b := by
  cases l with
  | nil => exact absurd rfl h
  | cons x t => rw [List.getLastD_cons, List.getLastD_cons]

/-- The last part of the slash-split of `l` is exactly the suffix of `l`
after its last slash — `parts[len(parts)-1]` in `extractEBSVolumeID` agrees
with the backward scan of `GetVolumeIDFromHandle`. -/
theorem getLastD_splitOnSlash (l : List Char) :
    (splitOnSlash l).getLastD [] = afterLastSlash l := by
  induction l with
  | nil => rfl
  | cons c cs ih =>
    rw [splitOnSlash, afterLastSlash]
    cases hsp : splitOnSlash cs with
    | nil => exact absurd hsp (splitOnSlash_ne_nil cs)
    | cons p ps =>
      rw [hsp] at ih
      dsimp only
      by_cases hc : c = '/'
      · rw [if_pos hc]
        by_cases hm : '/' ∈ cs
        · rw [if_pos hm, ← ih, List.getLastD_cons]
        · rw [if_neg hm, if_pos hc]
          have heq := splitOnSlash_no_slash cs hm
          rw [hsp] at heq
          injection heq with h1 h2
          subst h1; subst h2
          rw [List.getLastD_cons, List.getLastD_cons]
          rfl
      · rw [if_neg hc]
        by_cases hm : '/' ∈ cs
        · rw [if_pos hm, ← ih]
          have hps : ps ≠ [] := by
            have h2 := splitOnSlash_two_le cs hm
            rw [hsp] at h2
            intro hnil
            subst hnil
            simp at h2
          rw [List.getLastD_cons, List.getLastD_cons]
          exact getLastD_irrel ps (c :: p) p hps
        · rw [if_neg hm, if_neg hc]
          have heq := splitOnSlash_no_slash cs hm
          rw [hsp] at heq
          injection heq with h1 h2
          subst h1; subst h2
          rw [List.getLastD_cons]
          rfl

/-- Stripping nothing: a slash-free string is returned unchanged. -/
theorem afterLastSlash_no_slash (l : List Char) (h : '/' ∉ l) :
    afterLastSlash l = l := by
  cases l with
  | nil => rfl
  | cons c cs =>
    have hc : c ≠ '/' := fun hc => h (by simp [hc])
    have hcs : '/' ∉ cs := fun hm => h (List.mem_cons_of_mem c hm)
    rw [afterLastSlash, if_neg hcs, if_neg hc]

/-- C3: cloud-volume-id extraction — a CSI source with the EBS driver returns
the handle as-is; a CSI source with any other driver fails with
`UnsupportedDriver`; a legacy-only source returns the id with everything up
to and including the last `/` stripped (`getVolumeIDFromHandle`, which is
the identity when no `/` occurs); no source at all fails with
`NotABlockVolume`. -/
theorem extractEBSVolumeID_spec (pv : PersistentVolume) :
    (∀ csi, pv.spec.csi = some csi → csi.driver = "ebs.csi.aws.com" →
      extractEBSVolumeID pv = Except.ok csi.volumeHandle) ∧
    (∀ csi, pv.spec.csi = some csi → csi.driver ≠ "ebs.csi.aws.com" →
      extractEBSVolumeID pv = Except.error (TranslateError.unsupportedDriver csi.driver)) ∧
    (∀ ebs, pv.spec.csi = none → pv.spec.awsElasticBlockStore = some ebs →
      extractEBSVolumeID pv = Except.ok (getVolumeIDFromHandle ebs.volumeID)) ∧
    (pv.spec.csi = none → pv.spec.awsElasticBlockStore = none →
      extractEBSVolumeID pv = Except.error (TranslateError.notABlockVolume pv.name)) := by
  refine ⟨?_, ?_, ?_, ?_⟩
  · intro csi h1 h2
    simp only [extractEBSVolumeID]
    rw [h1]
    dsimp only
    rw [if_pos h2]
  · intro csi h1 h2
    simp only [extractEBSVolumeID]
    rw [h1]
    dsimp only
    rw [if_neg h2]
  · intro ebs h1 h2
    simp only [extractEBSVolumeID]
    rw [h1, h2]
    dsimp only
    congr 1
    rw [getVolumeIDFromHandle]
    by_cases hm : '/' ∈ ebs.volumeID.data
    · rw [if_pos hm, getLastD_splitOnSlash]
    · rw [if_neg hm, afterLastSlash_no_slash _ hm]
  · intro h1 h2
    simp only [extractEBSVolumeID]
    rw [h1, h2]

/-- Witness for C3 on a CSI volume with the EBS driver. -/
theorem extractEBSVolumeID_spec_witness :
    extractEBSVolumeID csiPV = Except.ok "vol-abc123" :=
  (extractEBSVolumeID_spec csiPV).1
    { driver := "ebs.csi.aws.com", volumeHandle := "vol-abc123", fsType := "ext4",
      readOnly := false, volumeAttributes := none } rfl rfl

/-- C4 counterexample: on the legacy volume `aws://eu-west-1b/vol-legacy1`
with no affinity expressions the code yields availability zone `""` (not
`eu-west-1b` — the zone inside the legacy id string is never recovered,
`extractAvailabilityZone` reads only node-affinity expressions) and hence no
synthesized node affinity on the destination volume. -/
theorem translatePV_legacy_zone_counterexample :
    (translatePV (some legacyPV) (some legacyPVC) legacyConfig).map
        (fun r => (r.volumeID, r.availabilityZone, r.pv.spec.nodeAffinity))
      = Except.ok ("vol-legacy1", "", none) ∧
    ("" : String) ≠ "eu-west-1b" := by
  refine ⟨rfl, by decide⟩

/-- C4 (amended): the legacy volume translates to extracted id `vol-legacy1`,
extracted availability zone `""`, and a destination volume carrying no node
affinity. -/
theorem translatePV_legacy_zone_amended :
    (translatePV (some legacyPV) (some legacyPVC) legacyConfig).map
        (fun r => (r.volumeID, r.availabilityZone, r.pv.spec.nodeAffinity))
      = Except.ok ("vol-legacy1", "", none) := rfl

/-- C9: a successful `TranslatePV` call leaves both source objects unchanged
— the function allocates fresh destination objects and never writes through
its input pointers. -/
theorem translatePV_frame (pv : PersistentVolume) (pvc : PersistentVolumeClaim)
    (cfg : PVTranslationConfig)
    (h : (translatePV (some pv) (some pvc) cfg).isOk = true) :
    (translatePVTracked (some pv) (some pvc) cfg).2.1 = some pv ∧
    (translatePVTracked (some pv) (some pvc) cfg).2.2 = some pvc :=
  ⟨rfl, rfl⟩

/-- Witness for C9 on the CSI fixture. -/
theorem translatePV_frame_witness :
    (translatePVTracked (some csiPV) (some csiPVC) legacyConfig).2.1 = some csiPV :=
  (translatePV_frame csiPV csiPVC legacyConfig (by decide)).1

/-! ## Theorems: Migration Controller -/

/-- C1 (code bug, evaluated at the failing input): `patchPVsToRetain` never
checks group membership (the announced "belongs to our StatefulSet" check is
missing and the `sts` parameter is unused) and appends every bound PV name
unconditionally.  With the group claim `data-web-0 → pv-a` (Delete), the
foreign claim `cache-other-0 → pv-foreign` (Delete), the foreign claim
`logs-other-0 → pv-ret` (already Retain) and an unbound claim, the returned
preserved list is `[pv-a, pv-foreign, pv-ret]` — not `[pv-a]` as the claim
requires — and the foreign `pv-foreign` is patched to Retain. -/
theorem patchPVsToRetain_failing_input :
    (patchPVsToRetain webSTS [pvcDataWeb0, pvcForeign, pvcRetained, pvcUnbound]
        [pvA, pvForeign, pvRet]).2 = ["pv-a", "pv-foreign", "pv-ret"] ∧
    ((patchPVsToRetain webSTS [pvcDataWeb0, pvcForeign, pvcRetained, pvcUnbound]
        [pvA, pvForeign, pvRet]).1.find? (fun pv => pv.name = "pv-foreign")).map
      (fun pv => pv.spec.persistentVolumeReclaimPolicy) = some ReclaimPolicy.retain :=
  ⟨rfl, rfl⟩

/-- C2 (code bug, evaluated at the failing input): `createDestinationStatefulSet`
builds the destination group from a fresh re-read of the source StatefulSet —
already deleted with orphan propagation — not from a spec snapshotted into
status during Freeze (`reconcileFreezingSource` stores no such snapshot and
`StatefulSetMigrationStatus` has no field for one).  When garbage collection
has removed the source object the step fails; when the racy re-read still
succeeds, the copied spec is the live source object's. -/
theorem createDestinationStatefulSet_failing_input :
    createDestinationStatefulSet
        (Except.error "statefulsets.apps \"web\" not found") exMigrationSpec
      = Except.error
          ("source StatefulSet no longer available for copying spec: statefulsets.apps \"web\" not found") ∧
    createDestinationStatefulSet (Except.ok webSTS) exMigrationSpec
      = Except.ok
          { name := "web", namespace_ := "dest-ns", uid := "",
            labels := [("app", "web")],
            annotations := [("migration.aqua.io/migrated-from", "prod/web")],
            spec := { replicas := 1, serviceName := "web-svc",
                      templateNamespace := "dest-ns", rest := "web-template" } } :=
  ⟨rfl, rfl⟩

/-- C8: the pre-flight checks run in the stated order — connectivity to both
clusters, source group exists (capturing its UID and replicas into status),
destination namespace exists, no same-name group in the destination, headless
service present when the source group names one.  Each conjunct below states
that a check's failure is reported (with the code's message) exactly when all
earlier checks passed; `force=true` downgrades only the missing-headless-
service requirement; on the same-name conflict the phase becomes `Failed`
with a message naming the conflicting group and namespace, while the phase
issues no source-cluster mutation and leaves `preservedVolumes` untouched
(first two conjuncts, unconditional). -/
theorem reconcilePreFlightChecks_spec (env : PreFlightEnv)
    (spec : StatefulSetMigrationSpec) (st : StatefulSetMigrationStatus) (now : Nat) :
    (reconcilePreFlightChecks env spec st now).2 = [] ∧
    (reconcilePreFlightChecks env spec st now).1.preservedPVs = st.preservedPVs ∧
    (∀ e, env.sourceClient = some e →
      (reconcilePreFlightChecks env spec st now).1 =
        failMigration st ("Failed to connect to source cluster: " ++ e) now) ∧
    (∀ e, env.sourceClient = none → env.destClient = some e →
      (reconcilePreFlightChecks env spec st now).1 =
        failMigration st ("Failed to connect to destination cluster: " ++ e) now) ∧
    (∀ e, env.sourceClient = none → env.destClient = none → env.sourceConn = some e →
      (reconcilePreFlightChecks env spec st now).1 =
        failMigration st ("Source cluster connectivity check failed: " ++ e) now) ∧
    (∀ e, env.sourceClient = none → env.destClient = none → env.sourceConn = none →
      env.destConn = some e →
      (reconcilePreFlightChecks env spec st now).1 =
        failMigration st ("Destination cluster connectivity check failed: " ++ e) now) ∧
    (∀ e, preFlightConnOk env → env.sourceSTS = Except.error e →
      (reconcilePreFlightChecks env spec st now).1 =
        failMigration st ("Source StatefulSet not found: " ++ e) now) ∧
    (∀ sts, preFlightConnOk env → env.sourceSTS = Except.ok sts →
      env.destNamespace = GetResult.notFound →
      (reconcilePreFlightChecks env spec st now).1 =
        failMigration (captureSourceSTS st sts)
          ("Destination namespace \"" ++ spec.destNamespace ++ "\" does not exist") now) ∧
    (∀ sts, preFlightConnOk env → env.sourceSTS = Except.ok sts →
      env.destNamespace = GetResult.found () → env.destSTS = GetResult.found () →
      (reconcilePreFlightChecks env spec st now).1 =
        failMigration (captureSourceSTS st sts)
          ("StatefulSet \"" ++ spec.statefulSetName
            ++ "\" already exists in destination namespace \""
            ++ spec.destNamespace ++ "\"") now ∧
      (reconcilePreFlightChecks env spec st now).1.phase = some MigrationPhase.failed ∧
      (reconcilePreFlightChecks env spec st now).1.lastError =
        "StatefulSet \"" ++ spec.statefulSetName
          ++ "\" already exists in destination namespace \""
          ++ spec.destNamespace ++ "\"") ∧
    (∀ sts, preFlightConnOk env → env.sourceSTS = Except.ok sts →
      env.destNamespace = GetResult.found () → env.destSTS = GetResult.notFound →
      sts.spec.serviceName ≠ "" → env.destService = GetResult.notFound →
      spec.force = false →
      (reconcilePreFlightChecks env spec st now).1 =
        failMigration (captureSourceSTS st sts)
          ("Headless service \"" ++ sts.spec.serviceName
            ++ "\" not found in destination namespace (required for StatefulSet)") now) ∧
    (∀ sts, preFlightConnOk env → env.sourceSTS = Except.ok sts →
      env.destNamespace = GetResult.found () → env.destSTS = GetResult.notFound →
      env.destService = GetResult.notFound → spec.force = true →
      (reconcilePreFlightChecks env spec st now).1 = preFlightPassedStatus st sts now) ∧
    (∀ sts, preFlightConnOk env → env.sourceSTS = Except.ok sts →
      env.destNamespace = GetResult.found () → env.destSTS = GetResult.notFound →
      (sts.spec.serviceName = "" ∨ env.destService = GetResult.found ()) →
      (reconcilePreFlightChecks env spec st now).1 = preFlightPassedStatus st sts now) ∧
    (env.destService ≠ GetResult.notFound →
      ∀ b, reconcilePreFlightChecks env { spec with force := b } st now =
        reconcilePreFlightChecks env spec st now) := by
  refine ⟨?_, ?_, ?_, ?_, ?_, ?_, ?_, ?_, ?_, ?_, ?_, ?_, ?_⟩
  · unfold reconcilePreFlightChecks
    (repeat' split) <;> rfl
  · unfold reconcilePreFlightChecks
    (repeat' split) <;>
      simp [failMigration, captureSourceSTS, preFlightPassedStatus]
  · intro e h1
    simp only [reconcilePreFlightChecks]
    rw [h1]
  · intro e h1 h2
    simp only [reconcilePreFlightChecks]
    rw [h1]
    dsimp only
    rw [h2]
  · intro e h1 h2 h3
    simp only [reconcilePreFlightChecks]
    rw [h1]
    dsimp only
    rw [h2]
    dsimp only
    rw [h3]
  · intro e h1 h2 h3 h4
    simp only [reconcilePreFlightChecks]
    rw [h1]
    dsimp only
    rw [h2]
    dsimp only
    rw [h3]
    dsimp only
    rw [h4]
  · intro e hconn hsts
    obtain ⟨h1, h2, h3, h4⟩ := hconn
    simp only [reconcilePreFlightChecks]
    rw [h1]
    dsimp only
    rw [h2]
    dsimp only
    rw [h3]
    dsimp only
    rw [h4]
    dsimp only
    rw [hsts]
  · intro sts hconn hsts hns
    obtain ⟨h1, h2, h3, h4⟩ := hconn
    simp only [reconcilePreFlightChecks]
    rw [h1]
    dsimp only
    rw [h2]
    dsimp only
    rw [h3]
    dsimp only
    rw [h4]
    dsimp only
    rw [hsts]
    dsimp only
    rw [hns]
  · intro sts hconn hsts hns hdsts
    obtain ⟨h1, h2, h3, h4⟩ := hconn
    have hred : (reconcilePreFlightChecks env spec st now).1 =
        failMigration (captureSourceSTS st sts)
          ("StatefulSet \"" ++ spec.statefulSetName
            ++ "\" already exists in destination namespace \""
            ++ spec.destNamespace ++ "\"") now := by
      simp only [reconcilePreFlightChecks]
      rw [h1]
      dsimp only
      rw [h2]
      dsimp only
      rw [h3]
      dsimp only
      rw [h4]
      dsimp only
      rw [hsts]
      dsimp only
      rw [hns]
      dsimp only
      rw [hdsts]
    rw [hred]
    exact ⟨rfl, rfl, rfl⟩
  · intro sts hconn hsts hns hdsts hsn hsvc hforce
    obtain ⟨h1, h2, h3, h4⟩ := hconn
    simp only [reconcilePreFlightChecks]
    rw [h1]
    dsimp only
    rw [h2]
    dsimp only
    rw [h3]
    dsimp only
    rw [h4]
    dsimp only
    rw [hsts]
    dsimp only
    rw [hns]
    dsimp only
    rw [hdsts]
    dsimp only
    rw [if_neg hsn, hsvc]
    dsimp only
    rw [hforce]
    rfl
  · intro sts hconn hsts hns hdsts hsvc hforce
    obtain ⟨h1, h2, h3, h4⟩ := hconn
    simp only [reconcilePreFlightChecks]
    rw [h1]
    dsimp only
    rw [h2]
    dsimp only
    rw [h3]
    dsimp only
    rw [h4]
    dsimp only
    rw [hsts]
    dsimp only
    rw [hns]
    dsimp only
    rw [hdsts]
    dsimp only
    rw [hsvc]
    dsimp only
    rw [hforce]
    by_cases hsn : sts.spec.serviceName = ""
    · rw [if_pos hsn]
    · rw [if_neg hsn]
      simp
  · intro sts hconn hsts hns hdsts hpass
    obtain ⟨h1, h2, h3, h4⟩ := hconn
    simp only [reconcilePreFlightChecks]
    rw [h1]
    dsimp only
    rw [h2]
    dsimp only
    rw [h3]
    dsimp only
    rw [h4]
    dsimp only
    rw [hsts]
    dsimp only
    rw [hns]
    dsimp only
    rw [hdsts]
    dsimp only
    rcases hpass with hsn | hsvc
    · rw [if_pos hsn]
    · rw [hsvc]
      dsimp only
      by_cases hsn : sts.spec.serviceName = ""
      · rw [if_pos hsn]
      · rw [if_neg hsn]
  · intro hsvc b
    simp only [reconcilePreFlightChecks]
    cases env.sourceClient with
    | some e => rfl
    | none =>
    cases env.destClient with
    | some e => rfl
    | none =>
    cases env.sourceConn with
    | some e => rfl
    | none =>
    cases env.destConn with
    | some e => rfl
    | none =>
    cases env.sourceSTS with
    | error e => rfl
    | ok sts =>
    cases env.destNamespace with
    | notFound => rfl
    | apiError e => rfl
    | found u =>
    cases env.destSTS with
    | found u2 => rfl
    | apiError e => rfl
    | notFound =>
    cases hd : env.destService with
    | notFound => exact absurd hd hsvc
    | found u3 => rfl
    | apiError e => rfl

/-- Witness for C8 at the conflict scenario: same-name group `web` already in
the destination namespace; the phase fails with the conflict message and the
phase has touched neither the source cluster nor `preservedVolumes`. -/
theorem reconcilePreFlightChecks_spec_witness :
    (reconcilePreFlightChecks conflictEnv exMigrationSpec initialStatus 0).1.lastError =
      "StatefulSet \"web\" already exists in destination namespace \"dest-ns\"" ∧
    (reconcilePreFlightChecks conflictEnv exMigrationSpec initialStatus 0).1.preservedPVs
      = initialStatus.preservedPVs :=
  ⟨((reconcilePreFlightChecks_spec conflictEnv exMigrationSpec initialStatus 0).2.2.2.2.2.2.2.2.1
      webSTS ⟨rfl, rfl, rfl, rfl⟩ rfl rfl rfl).2.2,
   (reconcilePreFlightChecks_spec conflictEnv exMigrationSpec initialStatus 0).2.1⟩

/-- The pre-flight step never touches `currentIndex` or `migrated`, and ends
in `Failed` or `FreezingSource`. -/
theorem reconcilePreFlightChecks_frame (env : PreFlightEnv)
    (spec : StatefulSetMigrationSpec) (st : StatefulSetMigrationStatus) (now : Nat) :
    (reconcilePreFlightChecks env spec st now).1.currentIndex = st.currentIndex ∧
    (reconcilePreFlightChecks env spec st now).1.migratedPods = st.migratedPods ∧
    ((reconcilePreFlightChecks env spec st now).1.phase = some MigrationPhase.failed ∨
     (reconcilePreFlightChecks env spec st now).1.phase = some MigrationPhase.freezingSource) := by
  unfold reconcilePreFlightChecks
  (repeat' split) <;>
    simp [failMigration, captureSourceSTS, preFlightPassedStatus]

/-- Every reconcile step preserves the progress invariant. -/
theorem reconcileStep_preserves_inv {st st' : StatefulSetMigrationStatus}
    (hstep : ReconcileStep st st') (hinv : StatusInv st) : StatusInv st' := by
  obtain ⟨hlen, hdense, hzero⟩ := hinv
  cases hstep with
  | initPhase h =>
    exact ⟨hlen, hdense, fun _ => hzero (Or.inl h)⟩
  | pendingStep now h =>
    exact ⟨hlen, hdense, fun _ => hzero (Or.inr (Or.inl h))⟩
  | preFlightStep env spec now h =>
    obtain ⟨hc, hm, hp⟩ := reconcilePreFlightChecks_frame env spec st now
    refine ⟨?_, ?_, ?_⟩
    · rw [hc, hm]
      exact hlen
    · intro k e hk
      rw [hm] at hk
      exact hdense k e hk
    · intro hphase
      rw [hc]
      rcases hp with hp | hp <;> rw [hp] at hphase <;>
        [skip; exact hzero (Or.inr (Or.inr (Or.inl h)))]
      rcases hphase with h1 | h1 | h1 | h1 <;> simp at h1
  | freezeOk preserved now h =>
    refine ⟨?_, hdense, fun _ => rfl⟩
    dsimp only
    rw [hlen]
    exact hzero (Or.inr (Or.inr (Or.inr h)))
  | freezeFail msg now h =>
    refine ⟨hlen, hdense, ?_⟩
    intro hphase
    rcases hphase with h1 | h1 | h1 | h1 <;> simp [failMigration] at h1
  | migrateAdvance podName volumeID now h hlt =>
    refine ⟨?_, ?_, ?_⟩
    · dsimp only
      rw [List.length_append, hlen]
      rfl
    · intro k e hk
      dsimp only at hk
      by_cases hklt : k < st.migratedPods.length
      · rw [List.getElem?_append_left hklt] at hk
        exact hdense k e hk
      · have hle : st.migratedPods.length ≤ k := Nat.le_of_not_lt hklt
        rw [List.getElem?_append_right hle] at hk
        rcases hsub : k - st.migratedPods.length with _ | m
        · rw [hsub] at hk
          simp at hk
          rw [← hk]
          dsimp only
          omega
        · rw [hsub] at hk
          simp at hk
    · intro hphase
      rcases hphase with h1 | h1 | h1 | h1 <;> simp [h] at h1
  | migrateFail msg now h hlt =>
    refine ⟨hlen, hdense, ?_⟩
    intro hphase
    rcases hphase with h1 | h1 | h1 | h1 <;> simp [failMigration] at h1
  | migrateDone h hge =>
    refine ⟨hlen, hdense, ?_⟩
    intro hphase
    rcases hphase with h1 | h1 | h1 | h1 <;> simp at h1
  | finalizeOk now h =>
    refine ⟨hlen, hdense, ?_⟩
    intro hphase
    rcases hphase with h1 | h1 | h1 | h1 <;> simp at h1
  | finalizeFail msg now h =>
    refine ⟨hlen, hdense, ?_⟩
    intro hphase
    rcases hphase with h1 | h1 | h1 | h1 <;> simp [failMigration] at h1

/-- Every reachable status satisfies the progress invariant. -/
theorem reachableStatus_inv (st : StatefulSetMigrationStatus)
    (h : ReachableStatus st) : StatusInv st := by
  unfold ReachableStatus at h
  induction h with
  | refl =>
    refine ⟨rfl, ?_, fun _ => rfl⟩
    intro k e hk
    simp [initialStatus] at hk
  | tail hsteps hstep ih => exact reconcileStep_preserves_inv hstep ih

/-- C7: over every sequence of reconcile steps from a fresh resource,
`currentIndex` never decreases, `migrated` grows only by appending (the old
list is a prefix of the new one), and the list stays dense with
`migrated[k].index = k` for every `k`. -/
theorem migration_progress_monotonic (st : StatefulSetMigrationStatus)
    (hreach : ReachableStatus st) :
    (∀ (k : Nat) (e : MigratedPodInfo), st.migratedPods[k]? = some e → e.index = k) ∧
    (∀ st', ReconcileStep st st' →
      st.currentIndex ≤ st'.currentIndex ∧
      st.migratedPods <+: st'.migratedPods ∧
      (∀ (k : Nat) (e : MigratedPodInfo), st'.migratedPods[k]? = some e → e.index = k)) := by
  have hinv := reachableStatus_inv st hreach
  refine ⟨hinv.2.1, ?_⟩
  intro st' hstep
  have hinv' := reconcileStep_preserves_inv hstep hinv
  refine ⟨?_, ?_, hinv'.2.1⟩
  · cases hstep with
    | initPhase h => exact Nat.le_refl _
    | pendingStep now h => exact Nat.le_refl _
    | preFlightStep env spec now h =>
      exact Nat.le_of_eq (reconcilePreFlightChecks_frame env spec st now).1.symm
    | freezeOk preserved now h =>
      exact Nat.le_of_eq (hinv.2.2 (Or.inr (Or.inr (Or.inr h))))
    | freezeFail msg now h => exact Nat.le_refl _
    | migrateAdvance podName volumeID now h hlt => exact Nat.le_succ _
    | migrateFail msg now h hlt => exact Nat.le_refl _
    | migrateDone h hge => exact Nat.le_refl _
    | finalizeOk now h => exact Nat.le_refl _
    | finalizeFail msg now h => exact Nat.le_refl _
  · cases hstep with
    | initPhase h => exact List.prefix_rfl
    | pendingStep now h => exact List.prefix_rfl
    | preFlightStep env spec now h =>
      rw [(reconcilePreFlightChecks_frame env spec st now).2.1]
    | freezeOk preserved now h => exact List.prefix_rfl
    | freezeFail msg now h => exact List.prefix_rfl
    | migrateAdvance podName volumeID now h hlt => exact List.prefix_append _ _
    | migrateFail msg now h hlt => exact List.prefix_rfl
    | migrateDone h hge => exact List.prefix_rfl
    | finalizeOk now h => exact List.prefix_rfl
    | finalizeFail msg now h => exact List.prefix_rfl

/-- Witness for C7: the invariant applied at the fresh status and its first
reconcile step. -/
theorem migration_progress_monotonic_witness :
    initialStatus.currentIndex ≤
      ({ initialStatus with phase := some MigrationPhase.pending } :
        StatefulSetMigrationStatus).currentIndex :=
  ((migration_progress_monotonic initialStatus Relation.ReflTransGen.refl).2
    { initialStatus with phase := some MigrationPhase.pending }
    (ReconcileStep.initPhase initialStatus rfl)).1

end AquaService
